import Mathlib

/-!
Shallow embedding of the EC2 transit-gateway state-reconciliation helpers of
this repository (refresh functions, multi-subnet association aggregation,
deletion waits, retry-until-visible group validation, route-table update
helpers).  Pure code is translated directly; every remote call is modelled by
passing the collaborator's response in as an explicit argument, and Go map
iteration (whose order is unspecified) is modelled by an explicit iteration
order over the map entries.
-/

namespace TGW

/-- AWS SDK constant ec2.TransitGatewayStateDeleted. -/
def TransitGatewayStateDeleted : String := "deleted"

/-- AWS SDK constant ec2.TransitGatewayRouteTableStateDeleted. -/
def TransitGatewayRouteTableStateDeleted : String := "deleted"

/-- AWS SDK constant ec2.TransitGatewayAttachmentStateDeleted. -/
def TransitGatewayAttachmentStateDeleted : String := "deleted"

/-- AWS SDK constant ec2.TransitGatewayAttachmentStateFailed. -/
def TransitGatewayAttachmentStateFailed : String := "failed"

/-- AWS SDK constant ec2.TransitGatewayMulticastDomainStateDeleted. -/
def TransitGatewayMulticastDomainStateDeleted : String := "deleted"

/-- AWS SDK constant ec2.AssociationStatusCodeAssociated. -/
def AssociationStatusCodeAssociated : String := "associated"

/-- AWS SDK constant ec2.AssociationStatusCodeAssociating. -/
def AssociationStatusCodeAssociating : String := "associating"

/-- AWS SDK constant ec2.AssociationStatusCodeDisassociated. -/
def AssociationStatusCodeDisassociated : String := "disassociated"

/-- AWS SDK constant ec2.AssociationStatusCodeDisassociating. -/
def AssociationStatusCodeDisassociating : String := "disassociating"

/-- AWS SDK constant ec2.AssociationStatusCodeAssociationFailed. -/
def AssociationStatusCodeAssociationFailed : String := "association-failed"

/-- A Go error value as classified by the provider's error helpers: whether the
resource-timeout and resource-not-found type assertions succeed, plus a message. -/
structure GoErr where
  isTimeoutError : Bool
  isNotFound : Bool
  message : String
deriving DecidableEq

/-- An awserr.Error: an AWS API error carrying a code and a message. -/
structure AwsErr where
  code : String
  message : String
deriving DecidableEq

/-- Go strings.Contains: true iff sub occurs in s (always true when sub is empty). -/
def goStringsContains (s sub : String) : Bool :=
  sub.isEmpty || decide (2 ≤ (s.splitOn sub).length)

/-- Modelled from the spec: the provider's isAWSErr helper (awserr utilities, a
repository file missing from src) tests that the error is an awserr.Error whose
code equals the given code and whose message contains the given message. -/
def isAWSErr (err : Option AwsErr) (code message : String) : Bool :=
  match err with
  | some e => e.code == code && goStringsContains e.message message
  | none => false

/-- Modelled from the spec: the provider's isResourceNotFoundError helper (awserr
utilities, a repository file missing from src) tests that the error is a
resource.NotFoundError produced by a wait. -/
def isResourceNotFoundError (err : Option GoErr) : Bool :=
  match err with
  | some e => e.isNotFound
  | none => false

/-- Modelled from the spec: the provider's isResourceTimeoutError helper (awserr
utilities, a repository file missing from src) tests that the error is a
resource.TimeoutError produced by the retry helper on timeout. -/
def isResourceTimeoutError (err : Option GoErr) : Bool :=
  match err with
  | some e => e.isTimeoutError
  | none => false

/-- ec2.TransitGateway, reduced to the field the refresh function reads. -/
structure TransitGateway where
  state : String
deriving DecidableEq

/-- ec2.TransitGatewayRouteTable, reduced to the field the refresh function reads. -/
structure TransitGatewayRouteTable where
  state : String
deriving DecidableEq

/-- ec2.TransitGatewayRouteTableAssociation, reduced to the field the refresh
function reads. -/
structure TransitGatewayRouteTableAssociation where
  state : String
deriving DecidableEq

/-- ec2.TransitGatewayPeeringAttachmentStatus: the status code and message of a
peering attachment. -/
structure PeeringAttachmentStatus where
  code : String
  message : String
deriving DecidableEq

/-- ec2.TransitGatewayPeeringAttachment, reduced to the fields the refresh
function reads: the state and the optional status. -/
structure TransitGatewayPeeringAttachment where
  state : String
  status : Option PeeringAttachmentStatus
deriving DecidableEq

/-- ec2.TransitGatewayVpcAttachment, reduced to the field the refresh function reads. -/
structure TransitGatewayVpcAttachment where
  state : String
deriving DecidableEq

/-- ec2.TransitGatewayMulticastDomain, reduced to the field the refresh function reads. -/
structure TransitGatewayMulticastDomain where
  state : String
deriving DecidableEq

/-- ec2TransitGatewayRefreshFunc: the body of the returned closure, with the
outcome (res, err) of the ec2DescribeTransitGateway call passed in.  Returns the
Go triple (payload, state label, error). -/
def ec2TransitGatewayRefreshFunc (transitGatewayID : String)
    (res : Option TransitGateway) (err : Option AwsErr) :
    Option TransitGateway × String × Option String :=
  if isAWSErr err "InvalidTransitGatewayID.NotFound" "" then
    (none, TransitGatewayStateDeleted, none)
  else
    match err with
    | some e =>
        (none, "",
          some ("error reading EC2 Transit Gateway (" ++ transitGatewayID ++ "): " ++ e.message))
    | none =>
      match res with
      | none => (none, TransitGatewayStateDeleted, none)
      | some transitGateway => (some transitGateway, transitGateway.state, none)

/-- ec2TransitGatewayRouteTableRefreshFunc: the body of the returned closure,
with the outcome of the describe call passed in. -/
def ec2TransitGatewayRouteTableRefreshFunc (transitGatewayRouteTableID : String)
    (res : Option TransitGatewayRouteTable) (err : Option AwsErr) :
    Option TransitGatewayRouteTable × String × Option String :=
  if isAWSErr err "InvalidRouteTableID.NotFound" "" then
    (none, TransitGatewayRouteTableStateDeleted, none)
  else
    match err with
    | some e =>
        (none, "",
          some ("error reading EC2 Transit Gateway Route Table (" ++
            transitGatewayRouteTableID ++ "): " ++ e.message))
    | none =>
      match res with
      | none => (none, TransitGatewayRouteTableStateDeleted, none)
      | some rt => (some rt, rt.state, none)

/-- ec2TransitGatewayRouteTableAssociationRefreshFunc: the body of the returned
closure, with the outcome of the describe call passed in. -/
def ec2TransitGatewayRouteTableAssociationRefreshFunc
    (transitGatewayRouteTableID transitGatewayAttachmentID : String)
    (res : Option TransitGatewayRouteTableAssociation) (err : Option AwsErr) :
    Option TransitGatewayRouteTableAssociation × String × Option String :=
  if isAWSErr err "InvalidRouteTableID.NotFound" "" then
    (none, TransitGatewayRouteTableStateDeleted, none)
  else
    match err with
    | some e =>
        (none, "",
          some ("error reading EC2 Transit Gateway Route Table (" ++
            transitGatewayRouteTableID ++ ") Association for (" ++
            transitGatewayAttachmentID ++ "): " ++ e.message))
    | none =>
      match res with
      | none => (none, TransitGatewayRouteTableStateDeleted, none)
      | some assoc => (some assoc, assoc.state, none)

/-- ec2TransitGatewayPeeringAttachmentRefreshFunc: the body of the returned
closure, with the outcome of the describe call passed in.  A failed state with a
non-nil status yields an error combining the status code and message. -/
def ec2TransitGatewayPeeringAttachmentRefreshFunc (transitGatewayAttachmentID : String)
    (res : Option TransitGatewayPeeringAttachment) (err : Option AwsErr) :
    Option TransitGatewayPeeringAttachment × String × Option String :=
  if isAWSErr err "InvalidTransitGatewayAttachmentID.NotFound" "" then
    (none, TransitGatewayAttachmentStateDeleted, none)
  else
    match err with
    | some e =>
        (none, "",
          some ("error reading EC2 Transit Gateway Peering Attachment (" ++
            transitGatewayAttachmentID ++ "): " ++ e.message))
    | none =>
      match res with
      | none => (none, TransitGatewayAttachmentStateDeleted, none)
      | some attachment =>
        if attachment.state == TransitGatewayAttachmentStateFailed then
          match attachment.status with
          | some st =>
              (some attachment, attachment.state, some (st.code ++ ": " ++ st.message))
          | none => (some attachment, attachment.state, none)
        else (some attachment, attachment.state, none)

/-- ec2TransitGatewayVpcAttachmentRefreshFunc: the body of the returned closure,
with the outcome of the describe call passed in. -/
def ec2TransitGatewayVpcAttachmentRefreshFunc (transitGatewayAttachmentID : String)
    (res : Option TransitGatewayVpcAttachment) (err : Option AwsErr) :
    Option TransitGatewayVpcAttachment × String × Option String :=
  if isAWSErr err "InvalidTransitGatewayAttachmentID.NotFound" "" then
    (none, TransitGatewayAttachmentStateDeleted, none)
  else
    match err with
    | some e =>
        (none, "",
          some ("error reading EC2 Transit Gateway VPC Attachment (" ++
            transitGatewayAttachmentID ++ "): " ++ e.message))
    | none =>
      match res with
      | none => (none, TransitGatewayAttachmentStateDeleted, none)
      | some attachment => (some attachment, attachment.state, none)

/-- ec2TransitGatewayMulticastDomainRefreshFunc: the body of the returned
closure, with the outcome of the describe call passed in. -/
def ec2TransitGatewayMulticastDomainRefreshFunc (domainID : String)
    (res : Option TransitGatewayMulticastDomain) (err : Option AwsErr) :
    Option TransitGatewayMulticastDomain × String × Option String :=
  if isAWSErr err "InvalidTransitGatewayMulticastDomainId.NotFound" "" then
    (none, TransitGatewayMulticastDomainStateDeleted, none)
  else
    match err with
    | some e =>
        (none, "",
          some ("error reading EC2 Transit Gateway Multicast Domain (" ++
            domainID ++ "): " ++ e.message))
    | none =>
      match res with
      | none => (none, TransitGatewayMulticastDomainStateDeleted, none)
      | some domain => (some domain, domain.state, none)

/-- ec2.SubnetAssociation inside a multicast domain association: the subnet id
and its association state (aws.StringValue of nil pointers is the empty string). -/
structure MCSubnet where
  subnetId : String
  state : String
deriving DecidableEq

/-- ec2.TransitGatewayMulticastDomainAssociation, reduced to the Subnet field the
refresh function reads; list entries are optional because the Go slice holds
pointers that the loop nil-checks. -/
structure MCAssociation where
  subnet : MCSubnet
deriving DecidableEq

/-- Lookup in the subnetStates Go map, represented as an association list with
unique keys. -/
def lookupState : List (String × String) → String → Option String
  | [], _ => none
  | (k0, v0) :: rest, k => if k0 == k then some v0 else lookupState rest k

/-- Go map assignment m[k] = v on the association-list representation: update the
existing entry if the key is present, otherwise append a new entry. -/
def mapInsert : List (String × String) → String → String → List (String × String)
  | [], k, v => [(k, v)]
  | (k0, v0) :: rest, k, v =>
    if k0 == k then (k0, v) :: rest else (k0, v0) :: mapInsert rest k v

/-- First loop of ec2TransitGatewayMulticastDomainAssociationRefreshFunc: seed
the subnetStates map with the empty string for every tracked subnet id. -/
def mcInitStates (m : List (String × String)) : List String → List (String × String)
  | [] => m
  | subnetID :: rest => mcInitStates (mapInsert m subnetID "") rest

/-- Second loop of ec2TransitGatewayMulticastDomainAssociationRefreshFunc: for
every non-nil association whose subnet id is a tracked key, record its state. -/
def mcApplyAssociations (m : List (String × String)) :
    List (Option MCAssociation) → List (String × String)
  | [] => m
  | none :: rest => mcApplyAssociations m rest
  | some association :: rest =>
    if (lookupState m association.subnet.subnetId).isSome then
      mcApplyAssociations (mapInsert m association.subnet.subnetId association.subnet.state) rest
    else
      mcApplyAssociations m rest

/-- Third loop of ec2TransitGatewayMulticastDomainAssociationRefreshFunc: a
tracked subnet whose recorded state is still the empty string (not found in
the returned associations) is marked as functionally disassociated. -/
def mcNormalizeStates (m : List (String × String)) : List (String × String) :=
  m.map (fun p => if p.2 == "" then (p.1, AssociationStatusCodeDisassociated) else p)

/-- The subnetStates map built by the three loops of
ec2TransitGatewayMulticastDomainAssociationRefreshFunc before the reduction runs. -/
def mcSubnetStates (subnetIDs : List String) (assocs : List (Option MCAssociation)) :
    List (String × String) :=
  mcNormalizeStates (mcApplyAssociations (mcInitStates [] subnetIDs) assocs)

/-- Final loop of ec2TransitGatewayMulticastDomainAssociationRefreshFunc over the
map's values in one iteration order.  Mirrors the Go switch exactly: the cases
for association-failed, disassociating and disassociated have empty bodies (Go
cases do not fall through), only associating returns immediately, and only an
associated value is compared against the running compound state. -/
def mcReduceLoop (associations : List (Option MCAssociation)) :
    String → List String → Option (List (Option MCAssociation)) × String × Option String
  | compoundState, [] => (some associations, compoundState, none)
  | compoundState, state :: rest =>
    if compoundState == "" then
      mcReduceLoop associations state rest
    else if state == AssociationStatusCodeAssociationFailed then
      mcReduceLoop associations compoundState rest
    else if state == AssociationStatusCodeDisassociating then
      mcReduceLoop associations compoundState rest
    else if state == AssociationStatusCodeAssociating then
      (some associations, state, none)
    else if state == AssociationStatusCodeDisassociated then
      mcReduceLoop associations compoundState rest
    else if state == AssociationStatusCodeAssociated then
      if compoundState != state then
        (none, "", some "received conflicting association states")
      else
        mcReduceLoop associations compoundState rest
    else
      (none, "", some ("unhandled association state: " ++ state))

/-- ec2TransitGatewayMulticastDomainAssociationRefreshFunc: the body of the
returned closure.  The outcome of ec2GetTransitGatewayMulticastDomainAssociations
is passed in, and the unspecified Go map iteration order is passed in as the
list of entries of the built subnetStates map (constrained to a permutation of
mcSubnetStates in the theorems below). -/
def ec2TransitGatewayMulticastDomainAssociationRefreshFunc
    (assocsResult : Except AwsErr (List (Option MCAssociation)))
    (iterOrder : List (String × String)) :
    Option (List (Option MCAssociation)) × String × Option String :=
  match assocsResult with
  | .error e =>
      (none, "",
        some ("error reading EC2 Transit Gateway Multicast Domain associations: " ++ e.message))
  | .ok associations => mcReduceLoop associations "" (iterOrder.map Prod.snd)

/-- The subnet ids carried by the non-nil entries of an association list, i.e.
the ids that appear in a poll's returned list. -/
def assocSubnetIds : List (Option MCAssociation) → List String
  | [] => []
  | none :: rest => assocSubnetIds rest
  | some a :: rest => a.subnet.subnetId :: assocSubnetIds rest

/-- waitForEc2TransitGatewayDeletion: the StateChangeConf wait itself is external
SDK machinery; its resulting error is passed in and the function's own error
post-processing is embedded. -/
def waitForEc2TransitGatewayDeletion (waitErr : Option GoErr) : Option GoErr :=
  if isResourceNotFoundError waitErr then none else waitErr

/-- waitForEc2TransitGatewayRouteTableDeletion: error post-processing of the wait. -/
def waitForEc2TransitGatewayRouteTableDeletion (waitErr : Option GoErr) : Option GoErr :=
  if isResourceNotFoundError waitErr then none else waitErr

/-- waitForEc2TransitGatewayRouteTableAssociationDeletion: error post-processing
of the wait. -/
def waitForEc2TransitGatewayRouteTableAssociationDeletion (waitErr : Option GoErr) :
    Option GoErr :=
  if isResourceNotFoundError waitErr then none else waitErr

/-- waitForEc2TransitGatewayPeeringAttachmentDeletion: error post-processing of
the wait. -/
def waitForEc2TransitGatewayPeeringAttachmentDeletion (waitErr : Option GoErr) :
    Option GoErr :=
  if isResourceNotFoundError waitErr then none else waitErr

/-- waitForEc2TransitGatewayVpcAttachmentDeletion: error post-processing of the wait. -/
def waitForEc2TransitGatewayVpcAttachmentDeletion (waitErr : Option GoErr) : Option GoErr :=
  if isResourceNotFoundError waitErr then none else waitErr

/-- waitForEc2TransitGatewayMulticastDomainDeletion: error post-processing of the wait. -/
def waitForEc2TransitGatewayMulticastDomainDeletion (waitErr : Option GoErr) : Option GoErr :=
  if isResourceNotFoundError waitErr then none else waitErr

/-- waitForEc2TransitGatewayMulticastDomainDisassociation: error post-processing
of the wait. -/
def waitForEc2TransitGatewayMulticastDomainDisassociation (waitErr : Option GoErr) :
    Option GoErr :=
  if isResourceNotFoundError waitErr then none else waitErr

/-- One evaluation of a resource.RetryFunc: the closure returned nil (done), a
resource.RetryableError, or a resource.NonRetryableError. -/
inductive RetryOutcome where
  | done
  | retryable (e : GoErr)
  | nonRetryable (e : GoErr)
deriving DecidableEq

/-- Modelled from the spec: resource.Retry of the SDK (the Retry-Until-Visible
helper contract, spec section 4.4) evaluated over the successive outcomes of the
closure: done stops with nil, a non-retryable outcome stops immediately with its
error, a retryable outcome retries, and exhausting the timeout while still
retrying yields a timeout-class error. -/
def resourceRetry : List RetryOutcome → Option GoErr
  | [] => some ⟨true, false, "timeout while waiting for state"⟩
  | .done :: _ => none
  | .nonRetryable e :: _ => some e
  | .retryable _ :: rest => resourceRetry rest

/-- Inner loop of waitForEc2TransitGatewayMulticastDomainGroupRegister: each net
id of the group must be found among the network interface ids of the searched
groups; a missing one is a retryable condition. -/
def registerGroupCheck (groups : List String) : List String → RetryOutcome
  | [] => .done
  | netID :: rest =>
    if groups.contains netID then
      registerGroupCheck groups rest
    else
      .retryable ⟨false, false, "EC2 Transit Gateway Multicast Domain group not available"⟩

/-- Inner loop of waitForEc2TransitGatewayMulticastDomainGroupDeregister: no net
id of the group may still be found among the searched groups; a remaining one is
a retryable condition. -/
def deregisterGroupCheck (groups : List String) : List String → RetryOutcome
  | [] => .done
  | netID :: rest =>
    if groups.contains netID then
      .retryable ⟨false, false, "EC2 Transit Gateway Multicast Domain still available"⟩
    else
      deregisterGroupCheck groups rest

/-- The retry closure of the group register wait, given one search result (the
network interface ids of the groups found, or a search error). -/
def registerRetryFunc (netIDs : List String) (search : Except GoErr (List String)) :
    RetryOutcome :=
  match search with
  | .error e => .nonRetryable e
  | .ok groups => registerGroupCheck groups netIDs

/-- The retry closure of the group deregister wait, given one search result. -/
def deregisterRetryFunc (netIDs : List String) (search : Except GoErr (List String)) :
    RetryOutcome :=
  match search with
  | .error e => .nonRetryable e
  | .ok groups => deregisterGroupCheck groups netIDs

/-- waitForEc2TransitGatewayMulticastDomainGroupRegister: runs the retry over the
successive group-search results, then keeps only a timeout-class error (wrapped
into a validation message) and returns nil otherwise. -/
def waitForEc2TransitGatewayMulticastDomainGroupRegister (netIDs : List String)
    (searches : List (Except GoErr (List String))) : Option GoErr :=
  let err := resourceRetry (searches.map (registerRetryFunc netIDs))
  if isResourceTimeoutError err then
    some ⟨false, false,
      "error validating that EC2 Transit Gateway Multicast Domain group was successfully registered"⟩
  else
    none

/-- waitForEc2TransitGatewayMulticastDomainGroupDeregister: runs the retry over
the successive group-search results, then keeps only a timeout-class error and
returns nil otherwise. -/
def waitForEc2TransitGatewayMulticastDomainGroupDeregister (netIDs : List String)
    (searches : List (Except GoErr (List String))) : Option GoErr :=
  let err := resourceRetry (searches.map (deregisterRetryFunc netIDs))
  if isResourceTimeoutError err then
    some ⟨false, false,
      "error validating that EC2 Transit Gateway Multicast Domain group was successfully deregistered"⟩
  else
    none

/-- The externally visible actions of the route-table update helpers: the issued
mutations and the invoked convergence waits.  There is no propagation wait
action because the source defines no wait function for propagations. -/
inductive TGWAction where
  | associateRouteTable
  | disassociateRouteTable
  | waitAssociationCreation
  | waitAssociationDeletion
  | enablePropagation
  | disablePropagation
deriving DecidableEq

/-- Collaborator responses for one run of ec2TransitGatewayRouteTableAssociationUpdate:
the describe outcome (an error, or the optional existing association), the error
of the mutation call, and the error of the convergence wait. -/
structure RouteTableAssociationUpdateEnv where
  describeResult : Except String (Option Unit)
  mutateErr : Option String
  waitErr : Option String

/-- Collaborator responses for one run of ec2TransitGatewayRouteTablePropagationUpdate:
the describe outcome and the error of the mutation call (the source invokes no
wait after either propagation mutation). -/
structure RouteTablePropagationUpdateEnv where
  describeResult : Except String (Option Unit)
  mutateErr : Option String

/-- ec2TransitGatewayRouteTableAssociationUpdate: returns the helper's error and
the trace of mutations and waits it performed, in order. -/
def ec2TransitGatewayRouteTableAssociationUpdate (env : RouteTableAssociationUpdateEnv)
    (associate : Bool) : Option String × List TGWAction :=
  match env.describeResult with
  | .error e =>
      (some ("error determining EC2 Transit Gateway Attachment Route Table association: " ++ e),
        [])
  | .ok transitGatewayAssociation =>
    if associate && transitGatewayAssociation.isNone then
      match env.mutateErr with
      | some e =>
          (some ("error associating EC2 Transit Gateway Route Table association: " ++ e),
            [.associateRouteTable])
      | none =>
        match env.waitErr with
        | some e =>
            (some ("error waiting for EC2 Transit Gateway Route Table association: " ++ e),
              [.associateRouteTable, .waitAssociationCreation])
        | none => (none, [.associateRouteTable, .waitAssociationCreation])
    else if !associate && transitGatewayAssociation.isSome then
      match env.mutateErr with
      | some e =>
          (some ("error disassociating EC2 Transit Gateway Route Table disassociation: " ++ e),
            [.disassociateRouteTable])
      | none =>
        match env.waitErr with
        | some e =>
            (some ("error waiting for EC2 Transit Gateway Route Table disassociation: " ++ e),
              [.disassociateRouteTable, .waitAssociationDeletion])
        | none => (none, [.disassociateRouteTable, .waitAssociationDeletion])
    else
      (none, [])

/-- ec2TransitGatewayRouteTablePropagationUpdate: returns the helper's error and
the trace of mutations it performed; the source returns directly after either
propagation mutation without any convergence wait. -/
def ec2TransitGatewayRouteTablePropagationUpdate (env : RouteTablePropagationUpdateEnv)
    (enablePropagation : Bool) : Option String × List TGWAction :=
  match env.describeResult with
  | .error e =>
      (some ("error determining EC2 Transit Gateway Attachment propagation to Route Table: " ++ e),
        [])
  | .ok transitGatewayRouteTablePropagation =>
    if enablePropagation && transitGatewayRouteTablePropagation.isNone then
      match env.mutateErr with
      | some e =>
          (some ("error enabling EC2 Transit Gateway Attachment propagation to Route Table: " ++ e),
            [.enablePropagation])
      | none => (none, [.enablePropagation])
    else if !enablePropagation && transitGatewayRouteTablePropagation.isSome then
      match env.mutateErr with
      | some e =>
          (some ("error disabling EC2 Transit Gateway Attachment propagation to Route Table: " ++ e),
            [.disablePropagation])
      | none => (none, [.disablePropagation])
    else
      (none, [])

/-- Execution shape of a describe helper: it returned its guard value (nil
result, nil error) without issuing any remote call, or it issued the remote call
with the given result and error, or it invoked the remote call on a nil
connection (a nil-pointer dereference in Go). -/
inductive DescribeExec (α : Type) where
  | guardReturn
  | remote (res : Option α) (err : Option AwsErr)
  | nilConnDeref
deriving DecidableEq

/-- Remote response held by a connection for
ec2DescribeTransitGatewayRouteTableAssociation: the API error, or the optional
output association list. -/
structure RTAssociationConn where
  response : Except AwsErr (Option (List TransitGatewayRouteTableAssociation))

/-- Remote response held by a connection for
ec2DescribeTransitGatewayMulticastDomain. -/
structure MulticastDomainConn where
  response : Except AwsErr (Option (List TransitGatewayMulticastDomain))

/-- Remote response held by a connection for
ec2GetTransitGatewayMulticastDomainAssociations: the API error, a nil output, or
the accumulated association list over all pages. -/
structure MulticastDomainAssociationsConn where
  response : Except AwsErr (Option (List (Option MCAssociation)))

/-- ec2DescribeTransitGatewayRouteTableAssociation: returns (nil, nil) without a
remote call when the route-table id is empty; there is no nil-connection guard,
so a nil connection with a non-empty id reaches the remote call. -/
def ec2DescribeTransitGatewayRouteTableAssociation (conn : Option RTAssociationConn)
    (transitGatewayRouteTableID transitGatewayAttachmentID : String) :
    DescribeExec TransitGatewayRouteTableAssociation :=
  if transitGatewayRouteTableID == "" then
    .guardReturn
  else
    match conn with
    | none => .nilConnDeref
    | some c =>
      match c.response with
      | .error e => .remote none (some e)
      | .ok none => .remote none none
      | .ok (some associations) =>
        match associations with
        | [] => .remote none none
        | a :: _ => .remote (some a) none

/-- ec2DescribeTransitGatewayMulticastDomain: returns (nil, nil) without a remote
call when the connection is nil or the domain id is empty. -/
def ec2DescribeTransitGatewayMulticastDomain (conn : Option MulticastDomainConn)
    (domainID : String) : DescribeExec TransitGatewayMulticastDomain :=
  match conn with
  | none => .guardReturn
  | some c =>
    if domainID == "" then
      .guardReturn
    else
      match c.response with
      | .error e => .remote none (some e)
      | .ok none => .remote none none
      | .ok (some domains) =>
        match domains with
        | [] => .remote none none
        | d :: _ => .remote (some d) none

/-- ec2GetTransitGatewayMulticastDomainAssociations: returns (nil, nil) without a
remote call when the connection is nil or the domain id is empty. -/
def ec2GetTransitGatewayMulticastDomainAssociations
    (conn : Option MulticastDomainAssociationsConn) (domainID : String) :
    DescribeExec (List (Option MCAssociation)) :=
  match conn with
  | none => .guardReturn
  | some c =>
    if domainID == "" then
      .guardReturn
    else
      match c.response with
      | .error e => .remote none (some e)
      | .ok none => .remote none none
      | .ok (some associations) => .remote (some associations) none

/-- Lookup after a map assignment at the assigned key yields the assigned value. -/
theorem lookupState_mapInsert_self :
    ∀ (m : List (String × String)) (k v : String),
      lookupState (mapInsert m k v) k = some v
  | [], k, v => by simp [mapInsert, lookupState]
  | (k0, v0) :: rest, k, v => by
    by_cases h : k0 = k
    · simp [mapInsert, lookupState, h]
    · simp [mapInsert, lookupState, h, lookupState_mapInsert_self rest k v]

/-- Lookup after a map assignment at a different key is unchanged. -/
theorem lookupState_mapInsert_ne :
    ∀ (m : List (String × String)) (k v k1 : String), k ≠ k1 →
      lookupState (mapInsert m k v) k1 = lookupState m k1
  | [], k, v, k1, h => by simp [mapInsert, lookupState, h]
  | (k0, v0) :: rest, k, v, k1, h => by
    by_cases h0 : k0 = k
    · subst h0
      simp [mapInsert, lookupState, h]
    · by_cases h1 : k0 = k1
      · subst h1
        simp [mapInsert, lookupState, h0]
      · simp [mapInsert, lookupState, h0, h1, lookupState_mapInsert_ne rest k v k1 h]

/-- Seeding the map with ids not containing sid leaves the lookup of sid unchanged. -/
theorem lookupState_mcInitStates_not_mem :
    ∀ (ids : List String) (m : List (String × String)) (sid : String), sid ∉ ids →
      lookupState (mcInitStates m ids) sid = lookupState m sid
  | [], _, _, _ => rfl
  | id :: rest, m, sid, h => by
    have h1 : sid ≠ id := fun he => h (by rw [he]; exact List.mem_cons_self id rest)
    have h2 : sid ∉ rest := fun he => h (List.mem_cons_of_mem id he)
    show lookupState (mcInitStates (mapInsert m id "") rest) sid = lookupState m sid
    rw [lookupState_mcInitStates_not_mem rest (mapInsert m id "") sid h2,
      lookupState_mapInsert_ne m id "" sid h1.symm]

/-- Every tracked subnet id is seeded with the empty-string state. -/
theorem lookupState_mcInitStates_mem :
    ∀ (ids : List String) (m : List (String × String)) (sid : String), sid ∈ ids →
      lookupState (mcInitStates m ids) sid = some ""
  | [], _, _, h => absurd h (List.not_mem_nil _)
  | id :: rest, m, sid, h => by
    by_cases hr : sid ∈ rest
    · exact lookupState_mcInitStates_mem rest (mapInsert m id "") sid hr
    · have hid : sid = id := by
        rcases List.mem_cons.mp h with h1 | h1
        · exact h1
        · exact absurd h1 hr
      subst hid
      show lookupState (mcInitStates (mapInsert m sid "") rest) sid = some ""
      rw [lookupState_mcInitStates_not_mem rest (mapInsert m sid "") sid hr,
        lookupState_mapInsert_self]

/-- Applying associations that never mention sid leaves the lookup of sid unchanged. -/
theorem lookupState_mcApplyAssociations_not_mem :
    ∀ (assocs : List (Option MCAssociation)) (m : List (String × String)) (sid : String),
      sid ∉ assocSubnetIds assocs →
      lookupState (mcApplyAssociations m assocs) sid = lookupState m sid
  | [], _, _, _ => rfl
  | none :: rest, m, sid, h => lookupState_mcApplyAssociations_not_mem rest m sid h
  | some a :: rest, m, sid, h => by
    have h1 : sid ≠ a.subnet.subnetId := by
      intro he
      exact h (by rw [he]; exact List.mem_cons_self _ _)
    have h2 : sid ∉ assocSubnetIds rest := fun he => h (List.mem_cons_of_mem _ he)
    show lookupState (mcApplyAssociations m (some a :: rest)) sid = lookupState m sid
    by_cases hx : (lookupState m a.subnet.subnetId).isSome = true
    · have hstep :
          mcApplyAssociations m (some a :: rest) =
            mcApplyAssociations (mapInsert m a.subnet.subnetId a.subnet.state) rest := by
        simp [mcApplyAssociations, hx]
      rw [hstep, lookupState_mcApplyAssociations_not_mem rest _ sid h2,
        lookupState_mapInsert_ne m a.subnet.subnetId a.subnet.state sid h1.symm]
    · have hstep :
          mcApplyAssociations m (some a :: rest) = mcApplyAssociations m rest := by
        simp [mcApplyAssociations, hx]
      rw [hstep, lookupState_mcApplyAssociations_not_mem rest m sid h2]

/-- Normalization turns an empty-string state into the disassociated label. -/
theorem lookupState_mcNormalizeStates_empty :
    ∀ (m : List (String × String)) (sid : String),
      lookupState m sid = some "" →
      lookupState (mcNormalizeStates m) sid = some AssociationStatusCodeDisassociated
  | [], sid, h => by simp [lookupState] at h
  | (k0, v0) :: rest, sid, h => by
    by_cases hk : k0 = sid
    · subst hk
      have hv : v0 = "" := by simpa [lookupState] using h
      subst hv
      simp [mcNormalizeStates, lookupState]
    · have h2 : lookupState rest sid = some "" := by simpa [lookupState, hk] using h
      have ih := lookupState_mcNormalizeStates_empty rest sid h2
      show lookupState
          ((if v0 == "" then (k0, AssociationStatusCodeDisassociated) else (k0, v0)) ::
            mcNormalizeStates rest) sid = some AssociationStatusCodeDisassociated
      by_cases hv : v0 = ""
      · rw [if_pos (by simp [hv])]
        simpa [lookupState, hk] using ih
      · rw [if_neg (by simp [hv])]
        simpa [lookupState, hk] using ih

/-- Claim C7: a subnet id in the tracked set that does not appear among the
subnet ids of the poll's returned associations is assigned the label
disassociated in the subnetStates map before the reduction runs. -/
theorem claim_c7_absent_subnet_disassociated :
    ∀ (subnetIDs : List String) (assocs : List (Option MCAssociation)) (sid : String),
      sid ∈ subnetIDs → sid ∉ assocSubnetIds assocs →
      lookupState (mcSubnetStates subnetIDs assocs) sid =
        some AssociationStatusCodeDisassociated := by
  intro ids assocs sid h1 h2
  have hinit : lookupState (mcInitStates [] ids) sid = some "" :=
    lookupState_mcInitStates_mem ids [] sid h1
  have happly : lookupState (mcApplyAssociations (mcInitStates [] ids) assocs) sid = some "" :=
    (lookupState_mcApplyAssociations_not_mem assocs (mcInitStates [] ids) sid h2).trans hinit
  exact lookupState_mcNormalizeStates_empty _ sid happly

/-- Claim C7 witness: subnet-1 is tracked but absent from the returned
associations, so its state before reduction is disassociated. -/
theorem claim_c7_witness :
    lookupState (mcSubnetStates ["subnet-1", "subnet-2"]
      [some ⟨⟨"subnet-2", "associated"⟩⟩]) "subnet-1" =
      some AssociationStatusCodeDisassociated :=
  claim_c7_absent_subnet_disassociated ["subnet-1", "subnet-2"]
    [some ⟨⟨"subnet-2", "associated"⟩⟩] "subnet-1" (by decide) (by decide)

/-- Claim C1 (evaluation at the failing input): tracked subnets subnet-1 with
label associated and subnet-2 with the in-progress label disassociating.
Contrary to the claim, the in-progress label is never returned with nil error:
under iteration order (associated, disassociating) the refresh function returns
compound state associated with nil error (the disassociating switch case has an
empty body), and under the reversed order it returns the conflicting-states
error (the first entry seeds the compound state and is never re-examined). -/
theorem claim_c1_in_progress_label_not_returned :
    mcSubnetStates ["subnet-1", "subnet-2"]
        [some ⟨⟨"subnet-1", "associated"⟩⟩, some ⟨⟨"subnet-2", "disassociating"⟩⟩] =
      [("subnet-1", "associated"), ("subnet-2", "disassociating")] ∧
    ec2TransitGatewayMulticastDomainAssociationRefreshFunc
        (Except.ok [some ⟨⟨"subnet-1", "associated"⟩⟩, some ⟨⟨"subnet-2", "disassociating"⟩⟩])
        [("subnet-1", "associated"), ("subnet-2", "disassociating")] =
      (some [some ⟨⟨"subnet-1", "associated"⟩⟩, some ⟨⟨"subnet-2", "disassociating"⟩⟩],
        "associated", none) ∧
    ec2TransitGatewayMulticastDomainAssociationRefreshFunc
        (Except.ok [some ⟨⟨"subnet-1", "associated"⟩⟩, some ⟨⟨"subnet-2", "disassociating"⟩⟩])
        [("subnet-2", "disassociating"), ("subnet-1", "associated")] =
      (none, "", some "received conflicting association states") :=
  ⟨rfl, rfl, rfl⟩

/-- Claim C2 (evaluation at the failing input): tracked subnets subnet-1 with
label associated and subnet-2 with label disassociated, no in-progress label
present.  Contrary to the claim, the conflicting-states error is raised only
under the iteration order that meets the associated label second: under order
(associated, disassociated) the refresh function returns compound state
associated with nil error, because the disassociated switch case has an empty
body. -/
theorem claim_c2_conflict_depends_on_iteration_order :
    mcSubnetStates ["subnet-1", "subnet-2"]
        [some ⟨⟨"subnet-1", "associated"⟩⟩, some ⟨⟨"subnet-2", "disassociated"⟩⟩] =
      [("subnet-1", "associated"), ("subnet-2", "disassociated")] ∧
    ec2TransitGatewayMulticastDomainAssociationRefreshFunc
        (Except.ok [some ⟨⟨"subnet-1", "associated"⟩⟩, some ⟨⟨"subnet-2", "disassociated"⟩⟩])
        [("subnet-1", "associated"), ("subnet-2", "disassociated")] =
      (some [some ⟨⟨"subnet-1", "associated"⟩⟩, some ⟨⟨"subnet-2", "disassociated"⟩⟩],
        "associated", none) ∧
    ec2TransitGatewayMulticastDomainAssociationRefreshFunc
        (Except.ok [some ⟨⟨"subnet-1", "associated"⟩⟩, some ⟨⟨"subnet-2", "disassociated"⟩⟩])
        [("subnet-2", "disassociated"), ("subnet-1", "associated")] =
      (none, "", some "received conflicting association states") :=
  ⟨rfl, rfl, rfl⟩

/-- Claim C3 (evaluation at the failing input): a single tracked subnet whose
observed label is the unrecognized string bogus.  Contrary to the claim, the
refresh function returns the unrecognized label with nil error instead of the
unhandled-state error, because the first entry in the iteration seeds the
compound state without passing through the switch. -/
theorem claim_c3_first_unrecognized_label_not_rejected :
    mcSubnetStates ["subnet-1"] [some ⟨⟨"subnet-1", "bogus"⟩⟩] = [("subnet-1", "bogus")] ∧
    ec2TransitGatewayMulticastDomainAssociationRefreshFunc
        (Except.ok [some ⟨⟨"subnet-1", "bogus"⟩⟩]) [("subnet-1", "bogus")] =
      (some [some ⟨⟨"subnet-1", "bogus"⟩⟩], "bogus", none) :=
  ⟨rfl, rfl⟩

/-- Claim C4 (evaluation at the failing input): the group search fails with a
hard API error (non-retryable, not a timeout).  Contrary to the claim, both the
register and the deregister visibility waits return nil: resource.Retry
surfaces the non-retryable error, but the functions return an error only when
isResourceTimeoutError holds and end in return nil, swallowing the hard error. -/
theorem claim_c4_hard_error_swallowed :
    waitForEc2TransitGatewayMulticastDomainGroupRegister ["eni-12345"]
        [Except.error ⟨false, false, "AccessDeniedException"⟩] = none ∧
    waitForEc2TransitGatewayMulticastDomainGroupDeregister ["eni-12345"]
        [Except.error ⟨false, false, "AccessDeniedException"⟩] = none :=
  ⟨rfl, rfl⟩

/-- Claim C5: every transit-gateway-family refresh function maps a describe
outcome that is the resource-kind's not-found error code, or a nil result with
nil error, to the triple (nil payload, deleted sentinel label, nil error). -/
theorem claim_c5_not_found_maps_to_deleted :
    (∀ (id : String) (res : Option TransitGateway) (err : Option AwsErr),
        isAWSErr err "InvalidTransitGatewayID.NotFound" "" = true ∨ (err = none ∧ res = none) →
        ec2TransitGatewayRefreshFunc id res err = (none, TransitGatewayStateDeleted, none)) ∧
    (∀ (id : String) (res : Option TransitGatewayRouteTable) (err : Option AwsErr),
        isAWSErr err "InvalidRouteTableID.NotFound" "" = true ∨ (err = none ∧ res = none) →
        ec2TransitGatewayRouteTableRefreshFunc id res err =
          (none, TransitGatewayRouteTableStateDeleted, none)) ∧
    (∀ (rtID aID : String) (res : Option TransitGatewayRouteTableAssociation)
        (err : Option AwsErr),
        isAWSErr err "InvalidRouteTableID.NotFound" "" = true ∨ (err = none ∧ res = none) →
        ec2TransitGatewayRouteTableAssociationRefreshFunc rtID aID res err =
          (none, TransitGatewayRouteTableStateDeleted, none)) ∧
    (∀ (id : String) (res : Option TransitGatewayPeeringAttachment) (err : Option AwsErr),
        isAWSErr err "InvalidTransitGatewayAttachmentID.NotFound" "" = true ∨
          (err = none ∧ res = none) →
        ec2TransitGatewayPeeringAttachmentRefreshFunc id res err =
          (none, TransitGatewayAttachmentStateDeleted, none)) ∧
    (∀ (id : String) (res : Option TransitGatewayVpcAttachment) (err : Option AwsErr),
        isAWSErr err "InvalidTransitGatewayAttachmentID.NotFound" "" = true ∨
          (err = none ∧ res = none) →
        ec2TransitGatewayVpcAttachmentRefreshFunc id res err =
          (none, TransitGatewayAttachmentStateDeleted, none)) ∧
    (∀ (id : String) (res : Option TransitGatewayMulticastDomain) (err : Option AwsErr),
        isAWSErr err "InvalidTransitGatewayMulticastDomainId.NotFound" "" = true ∨
          (err = none ∧ res = none) →
        ec2TransitGatewayMulticastDomainRefreshFunc id res err =
          (none, TransitGatewayMulticastDomainStateDeleted, none)) := by
  refine ⟨?_, ?_, ?_, ?_, ?_, ?_⟩
  · intro id res err h
    rcases h with h | ⟨h1, h2⟩
    · simp [ec2TransitGatewayRefreshFunc, h]
    · subst h1; subst h2; rfl
  · intro id res err h
    rcases h with h | ⟨h1, h2⟩
    · simp [ec2TransitGatewayRouteTableRefreshFunc, h]
    · subst h1; subst h2; rfl
  · intro rtID aID res err h
    rcases h with h | ⟨h1, h2⟩
    · simp [ec2TransitGatewayRouteTableAssociationRefreshFunc, h]
    · subst h1; subst h2; rfl
  · intro id res err h
    rcases h with h | ⟨h1, h2⟩
    · simp [ec2TransitGatewayPeeringAttachmentRefreshFunc, h]
    · subst h1; subst h2; rfl
  · intro id res err h
    rcases h with h | ⟨h1, h2⟩
    · simp [ec2TransitGatewayVpcAttachmentRefreshFunc, h]
    · subst h1; subst h2; rfl
  · intro id res err h
    rcases h with h | ⟨h1, h2⟩
    · simp [ec2TransitGatewayMulticastDomainRefreshFunc, h]
    · subst h1; subst h2; rfl

/-- Claim C5 witness: each refresh function at a concrete not-found error or
absent result yields the deleted sentinel with nil payload and nil error. -/
theorem claim_c5_witness :
    ec2TransitGatewayRefreshFunc "tgw-1" none
        (some ⟨"InvalidTransitGatewayID.NotFound", "gateway not found"⟩) =
      (none, TransitGatewayStateDeleted, none) ∧
    ec2TransitGatewayRouteTableRefreshFunc "tgw-rtb-1" none none =
      (none, TransitGatewayRouteTableStateDeleted, none) ∧
    ec2TransitGatewayRouteTableAssociationRefreshFunc "tgw-rtb-1" "tgw-attach-1" none
        (some ⟨"InvalidRouteTableID.NotFound", "route table not found"⟩) =
      (none, TransitGatewayRouteTableStateDeleted, none) ∧
    ec2TransitGatewayPeeringAttachmentRefreshFunc "tgw-attach-1" none
        (some ⟨"InvalidTransitGatewayAttachmentID.NotFound", "attachment not found"⟩) =
      (none, TransitGatewayAttachmentStateDeleted, none) ∧
    ec2TransitGatewayVpcAttachmentRefreshFunc "tgw-attach-2" none none =
      (none, TransitGatewayAttachmentStateDeleted, none) ∧
    ec2TransitGatewayMulticastDomainRefreshFunc "tgw-mcast-domain-1" none
        (some ⟨"InvalidTransitGatewayMulticastDomainId.NotFound", "domain not found"⟩) =
      (none, TransitGatewayMulticastDomainStateDeleted, none) :=
  ⟨claim_c5_not_found_maps_to_deleted.1 "tgw-1" none
      (some ⟨"InvalidTransitGatewayID.NotFound", "gateway not found"⟩) (Or.inl (by decide)),
    claim_c5_not_found_maps_to_deleted.2.1 "tgw-rtb-1" none none (Or.inr ⟨rfl, rfl⟩),
    claim_c5_not_found_maps_to_deleted.2.2.1 "tgw-rtb-1" "tgw-attach-1" none
      (some ⟨"InvalidRouteTableID.NotFound", "route table not found"⟩) (Or.inl (by decide)),
    claim_c5_not_found_maps_to_deleted.2.2.2.1 "tgw-attach-1" none
      (some ⟨"InvalidTransitGatewayAttachmentID.NotFound", "attachment not found"⟩)
      (Or.inl (by decide)),
    claim_c5_not_found_maps_to_deleted.2.2.2.2.1 "tgw-attach-2" none none (Or.inr ⟨rfl, rfl⟩),
    claim_c5_not_found_maps_to_deleted.2.2.2.2.2 "tgw-mcast-domain-1" none
      (some ⟨"InvalidTransitGatewayMulticastDomainId.NotFound", "domain not found"⟩)
      (Or.inl (by decide))⟩

/-- Claim C6: every deletion or disassociation wait returns nil whenever the
underlying state wait terminates with a resource-not-found outcome. -/
theorem claim_c6_not_found_wait_success :
    ∀ err : Option GoErr, isResourceNotFoundError err = true →
      waitForEc2TransitGatewayDeletion err = none ∧
      waitForEc2TransitGatewayRouteTableDeletion err = none ∧
      waitForEc2TransitGatewayRouteTableAssociationDeletion err = none ∧
      waitForEc2TransitGatewayPeeringAttachmentDeletion err = none ∧
      waitForEc2TransitGatewayVpcAttachmentDeletion err = none ∧
      waitForEc2TransitGatewayMulticastDomainDeletion err = none ∧
      waitForEc2TransitGatewayMulticastDomainDisassociation err = none := by
  intro err h
  simp [waitForEc2TransitGatewayDeletion, waitForEc2TransitGatewayRouteTableDeletion,
    waitForEc2TransitGatewayRouteTableAssociationDeletion,
    waitForEc2TransitGatewayPeeringAttachmentDeletion,
    waitForEc2TransitGatewayVpcAttachmentDeletion,
    waitForEc2TransitGatewayMulticastDomainDeletion,
    waitForEc2TransitGatewayMulticastDomainDisassociation, h]

/-- Claim C6 witness: a concrete resource-not-found wait outcome makes all seven
waits report success. -/
theorem claim_c6_witness :
    waitForEc2TransitGatewayDeletion (some ⟨false, true, "resource not found"⟩) = none ∧
    waitForEc2TransitGatewayRouteTableDeletion (some ⟨false, true, "resource not found"⟩) =
      none ∧
    waitForEc2TransitGatewayRouteTableAssociationDeletion
      (some ⟨false, true, "resource not found"⟩) = none ∧
    waitForEc2TransitGatewayPeeringAttachmentDeletion
      (some ⟨false, true, "resource not found"⟩) = none ∧
    waitForEc2TransitGatewayVpcAttachmentDeletion (some ⟨false, true, "resource not found"⟩) =
      none ∧
    waitForEc2TransitGatewayMulticastDomainDeletion
      (some ⟨false, true, "resource not found"⟩) = none ∧
    waitForEc2TransitGatewayMulticastDomainDisassociation
      (some ⟨false, true, "resource not found"⟩) = none :=
  claim_c6_not_found_wait_success (some ⟨false, true, "resource not found"⟩) rfl

/-- Claim C8: when the peering attachment is observed in the failed state with a
non-nil status, the refresh function returns a non-nil error whose message is
the status code followed by the status message. -/
theorem claim_c8_failed_status_yields_error :
    ∀ (attachmentID : String) (attachment : TransitGatewayPeeringAttachment)
      (st : PeeringAttachmentStatus),
      attachment.state = TransitGatewayAttachmentStateFailed →
      attachment.status = some st →
      ec2TransitGatewayPeeringAttachmentRefreshFunc attachmentID (some attachment) none =
        (some attachment, attachment.state, some (st.code ++ ": " ++ st.message)) := by
  intro attachmentID attachment st h1 h2
  simp [ec2TransitGatewayPeeringAttachmentRefreshFunc, isAWSErr, h1, h2,
    TransitGatewayAttachmentStateFailed]

/-- Claim C8 witness: a concrete failed attachment with a status yields the
combined error. -/
theorem claim_c8_witness :
    ec2TransitGatewayPeeringAttachmentRefreshFunc "tgw-attach-1"
        (some ⟨TransitGatewayAttachmentStateFailed,
          some ⟨"IncorrectState", "peer attachment failed"⟩⟩) none =
      (some ⟨TransitGatewayAttachmentStateFailed,
          some ⟨"IncorrectState", "peer attachment failed"⟩⟩,
        TransitGatewayAttachmentStateFailed,
        some ("IncorrectState" ++ ": " ++ "peer attachment failed")) :=
  claim_c8_failed_status_yields_error "tgw-attach-1"
    ⟨TransitGatewayAttachmentStateFailed, some ⟨"IncorrectState", "peer attachment failed"⟩⟩
    ⟨"IncorrectState", "peer attachment failed"⟩ rfl rfl

/-- Claim C9 (counterexample): the propagation update helper with no existing
propagation and a successful mutation issues the enable mutation and returns
nil without invoking any convergence wait, so the claim that a convergence wait
is invoked after every issued mutation is false for the propagation helper. -/
theorem claim_c9_counterexample :
    ec2TransitGatewayRouteTablePropagationUpdate ⟨Except.ok none, none⟩ true =
      (none, [TGWAction.enablePropagation]) :=
  rfl

/-- Claim C9 (amended): the association update helper invokes the matching
convergence wait after every successfully issued mutation before returning,
while the propagation update helper issues its mutations with no subsequent
convergence wait (its trace never contains a wait action). -/
theorem claim_c9_amended_waits :
    (∀ (d : Except String (Option Unit)) (me we : Option String) (associate : Bool),
        me = none →
        ((TGWAction.associateRouteTable ∈
            (ec2TransitGatewayRouteTableAssociationUpdate ⟨d, me, we⟩ associate).2 →
          (ec2TransitGatewayRouteTableAssociationUpdate ⟨d, me, we⟩ associate).2 =
            [TGWAction.associateRouteTable, TGWAction.waitAssociationCreation]) ∧
         (TGWAction.disassociateRouteTable ∈
            (ec2TransitGatewayRouteTableAssociationUpdate ⟨d, me, we⟩ associate).2 →
          (ec2TransitGatewayRouteTableAssociationUpdate ⟨d, me, we⟩ associate).2 =
            [TGWAction.disassociateRouteTable, TGWAction.waitAssociationDeletion]))) ∧
    (∀ (d : Except String (Option Unit)) (me : Option String) (enable : Bool),
        (ec2TransitGatewayRouteTablePropagationUpdate ⟨d, me⟩ enable).2 = [] ∨
        (ec2TransitGatewayRouteTablePropagationUpdate ⟨d, me⟩ enable).2 =
          [TGWAction.enablePropagation] ∨
        (ec2TransitGatewayRouteTablePropagationUpdate ⟨d, me⟩ enable).2 =
          [TGWAction.disablePropagation]) := by
  constructor
  · rintro d me we associate rfl
    rcases d with e | assoc
    · simp [ec2TransitGatewayRouteTableAssociationUpdate]
    · cases assoc <;> cases associate <;> rcases we with _ | e <;>
        simp [ec2TransitGatewayRouteTableAssociationUpdate]
  · intro d me enable
    rcases d with e | prop
    · simp [ec2TransitGatewayRouteTablePropagationUpdate]
    · cases prop <;> cases enable <;> rcases me with _ | e <;>
        simp [ec2TransitGatewayRouteTablePropagationUpdate]

/-- Claim C9 witness: concrete runs showing the association helper waits after
its mutation and the propagation helper's trace is wait-free. -/
theorem claim_c9_witness :
    (ec2TransitGatewayRouteTableAssociationUpdate ⟨Except.ok none, none, none⟩ true).2 =
      [TGWAction.associateRouteTable, TGWAction.waitAssociationCreation] ∧
    ((ec2TransitGatewayRouteTablePropagationUpdate ⟨Except.ok (some ()), none⟩ false).2 = [] ∨
      (ec2TransitGatewayRouteTablePropagationUpdate ⟨Except.ok (some ()), none⟩ false).2 =
        [TGWAction.enablePropagation] ∨
      (ec2TransitGatewayRouteTablePropagationUpdate ⟨Except.ok (some ()), none⟩ false).2 =
        [TGWAction.disablePropagation]) :=
  ⟨(claim_c9_amended_waits.1 (Except.ok none) none none true rfl).1 (by decide),
    claim_c9_amended_waits.2 (Except.ok (some ())) none false⟩

/-- Claim C10 (counterexample): with a nil connection and a non-empty route-table
id, ec2DescribeTransitGatewayRouteTableAssociation does not take the guarded
(nil, nil) return: it has no nil-connection guard and proceeds to invoke the
remote call on the nil connection. -/
theorem claim_c10_counterexample :
    ec2DescribeTransitGatewayRouteTableAssociation none "tgw-rtb-12345" "tgw-attach-12345" =
      DescribeExec.nilConnDeref :=
  rfl

/-- Claim C10 (amended): the route-table association describe helper returns
(nil, nil) without a remote call exactly when the route-table id is empty (it
has no nil-connection guard), the two multicast-domain helpers do so when the
connection is nil or the domain id is empty, and a refresh over such a guarded
outcome reports the deleted or disassociated state as if deletion had already
converged. -/
theorem claim_c10_amended_guards :
    (∀ (conn : Option RTAssociationConn) (attachmentID : String),
        ec2DescribeTransitGatewayRouteTableAssociation conn "" attachmentID =
          DescribeExec.guardReturn) ∧
    (∀ (conn : Option MulticastDomainConn) (domainID : String),
        conn = none ∨ domainID = "" →
        ec2DescribeTransitGatewayMulticastDomain conn domainID = DescribeExec.guardReturn) ∧
    (∀ (conn : Option MulticastDomainAssociationsConn) (domainID : String),
        conn = none ∨ domainID = "" →
        ec2GetTransitGatewayMulticastDomainAssociations conn domainID =
          DescribeExec.guardReturn) ∧
    (∀ (rtID aID : String),
        ec2TransitGatewayRouteTableAssociationRefreshFunc rtID aID none none =
          (none, TransitGatewayRouteTableStateDeleted, none)) ∧
    (∀ (domainID : String),
        ec2TransitGatewayMulticastDomainRefreshFunc domainID none none =
          (none, TransitGatewayMulticastDomainStateDeleted, none)) ∧
    (mcSubnetStates ["subnet-1"] [] = [("subnet-1", AssociationStatusCodeDisassociated)] ∧
      ec2TransitGatewayMulticastDomainAssociationRefreshFunc (Except.ok [])
          [("subnet-1", AssociationStatusCodeDisassociated)] =
        (some [], AssociationStatusCodeDisassociated, none)) := by
  refine ⟨?_, ?_, ?_, ?_, ?_, rfl, rfl⟩
  · intro conn attachmentID
    rfl
  · intro conn domainID h
    rcases h with h | h
    · subst h; rfl
    · subst h
      rcases conn with _ | c
      · rfl
      · rfl
  · intro conn domainID h
    rcases h with h | h
    · subst h; rfl
    · subst h
      rcases conn with _ | c
      · rfl
      · rfl
  · intro rtID aID
    rfl
  · intro domainID
    rfl

/-- Claim C10 witness: concrete guarded calls return the (nil, nil) guard value
and the corresponding refreshes report the deleted state. -/
theorem claim_c10_witness :
    ec2DescribeTransitGatewayMulticastDomain none "tgw-mcast-domain-1" =
      DescribeExec.guardReturn ∧
    ec2GetTransitGatewayMulticastDomainAssociations
        (some ⟨Except.ok none⟩) "" = DescribeExec.guardReturn ∧
    ec2DescribeTransitGatewayRouteTableAssociation (some ⟨Except.ok none⟩) "" "tgw-attach-1" =
      DescribeExec.guardReturn ∧
    ec2TransitGatewayMulticastDomainRefreshFunc "" none none =
      (none, TransitGatewayMulticastDomainStateDeleted, none) :=
  ⟨claim_c10_amended_guards.2.1 none "tgw-mcast-domain-1" (Or.inl rfl),
    claim_c10_amended_guards.2.2.1 (some ⟨Except.ok none⟩) "" (Or.inr rfl),
    claim_c10_amended_guards.1 (some ⟨Except.ok none⟩) "tgw-attach-1",
    claim_c10_amended_guards.2.2.2.2.1 ""⟩

end TGW
